import Mathlib

/-!
Shallow embedding of the thumbnail upload/retrieval handlers of
`src/api/thumbnails.ts`, together with theorems about their behaviour.

The handlers are pure TypeScript control flow over three collaborators:
an auth routine (`getBearerToken`/`validateJWT`), a video store
(`getVideo`/`updateVideo`), and a module-level `Map` of thumbnails.
The collaborators live outside the provided sources, so they are
modelled from the specification; the handlers themselves are translated
line by line.  Byte payloads are lists of naturals, the keyed map is an
association list with JavaScript `Map.set` semantics (replace in place,
else append), and thrown errors become an explicit `Outcome` value
returned together with the post-state.
-/

set_option autoImplicit false

namespace Tubely

/-- A byte payload (the contents of an uploaded file / an `ArrayBuffer`). -/
abbrev Bytes := List Nat

/-- `type Thumbnail = { data: ArrayBuffer; mediaType: string }` from
`src/api/thumbnails.ts`. -/
structure Thumbnail where
  data : Bytes
  mediaType : String
  deriving Repr, DecidableEq

/-- The fields of a video record the handlers touch: identifier, owning
user identifier, and the optional thumbnail URL. -/
structure Video where
  id : String
  userID : String
  thumbnailURL : Option String
  deriving Repr, DecidableEq

/-- The error kinds thrown by the handlers: `BadRequestError`,
`NotFoundError`, `UserForbiddenError` from `src/api/errors`, an
authentication failure from the auth collaborator, and a store-level
failure from the video-store collaborator. -/
inductive ApiError where
  | badRequest (msg : String)
  | notFound (msg : String)
  | userForbidden (msg : String)
  | unauthenticated (msg : String)
  | storeError (msg : String)
  deriving Repr, DecidableEq

/-- Result of a handler body: the returned value, or the thrown error. -/
inductive Outcome (α : Type) where
  | ok (value : α)
  | error (err : ApiError)
  deriving Repr, DecidableEq

/-- An uploaded `File` part: its byte contents and its declared media
type string (`File.prototype.type`); its `size` is the byte length. -/
structure UploadFile where
  data : Bytes
  mediaType : String
  deriving Repr, DecidableEq

/-- A value returned by `formData.get("thumbnail")` when present: either a
`File` instance or a plain string form value. -/
inductive FormValue where
  | file (f : UploadFile)
  | str (s : String)
  deriving Repr, DecidableEq

/-- The parts of a `BunRequest` the handlers read: the HTTP method, the
`videoId` route parameter (the empty string models a missing/empty
parameter, both falsy in JavaScript), and the value of the form field
named "thumbnail" (`none` when the field is absent). -/
structure BunRequest where
  method : String
  videoId : String
  thumbnail : Option FormValue
  deriving Repr, DecidableEq

/-- The configuration fields the handlers consume (`cfg.port`; the JWT
secret is only handed opaquely to the auth collaborator). -/
structure ApiConfig where
  port : Nat
  deriving Repr, DecidableEq

/-- `s.startsWith(p)` of JavaScript strings: `p`'s characters are an
initial segment of `s`'s. -/
def strStartsWith (s p : String) : Bool :=
  p.data.isPrefixOf s.data

/-- Lookup in the module-level `Map` (`videoThumbnails.get`). -/
def mapGet (m : List (String × Thumbnail)) (k : String) : Option Thumbnail :=
  match m with
  | [] => none
  | (k', v) :: rest => if k' = k then some v else mapGet rest k

/-- JavaScript `Map.set`: replace the entry in place when the key is
present, otherwise append a fresh entry. -/
def mapSet (m : List (String × Thumbnail)) (k : String) (v : Thumbnail) :
    List (String × Thumbnail) :=
  match m with
  | [] => [(k, v)]
  | (k', v') :: rest =>
    if k' = k then (k, v) :: rest else (k', v') :: mapSet rest k v

/-- Modelled from the spec: the Video-Store collaborator's
`fetchVideo(db, id) -> VideoRecord|absent` (`getVideo` of
`src/db/videos`, not among the provided sources).  The database is a
table of video records keyed by their `id` field. -/
def getVideo (db : List Video) (id : String) : Option Video :=
  match db with
  | [] => none
  | v :: rest => if v.id = id then some v else getVideo rest id

/-- Modelled from the spec: the Video-Store collaborator's
`persistVideo(db, record) -> void` (`updateVideo` of `src/db/videos`, not
among the provided sources): the row whose identifier matches the
record's is replaced by the record. -/
def updateVideo (db : List Video) (v : Video) : List Video :=
  db.map (fun w => if w.id = v.id then v else w)

/-- The mutable state the handlers see: the module-level thumbnail map
and the video-store table behind `cfg.db`. -/
structure ApiState where
  videoThumbnails : List (String × Thumbnail)
  db : List Video
  deriving Repr, DecidableEq

/-- `const MAX_UPLOAD_SIZE = 10 << 20` — a JavaScript 32-bit shift. -/
def MAX_UPLOAD_SIZE : Nat := (10 <<< 20) % 2 ^ 32

/-- The response built by `handlerGetThumbnail`: the raw bytes plus the
`Content-Type` and `Cache-Control` headers. -/
structure ThumbnailResponse where
  body : Bytes
  contentType : String
  cacheControl : String
  deriving Repr, DecidableEq

/-- `handlerGetThumbnail` of `src/api/thumbnails.ts`, translated line by
line.  The outcome of the auth collaborator is irrelevant here (the read
path performs no authentication); the state is returned alongside the
outcome to make the absence of mutation provable. -/
def handlerGetThumbnail (req : BunRequest) (st : ApiState) :
    Outcome ThumbnailResponse × ApiState :=
  if req.videoId = "" then
    (.error (.badRequest "Invalid video ID"), st)
  else
    match getVideo st.db req.videoId with
    | none => (.error (.notFound "Couldn't find video"), st)
    | some _ =>
      match mapGet st.videoThumbnails req.videoId with
      | none => (.error (.notFound "Thumbnail not found"), st)
      | some t =>
        (.ok { body := t.data, contentType := t.mediaType,
               cacheControl := "no-store" }, st)

/-- The template literal of step 8 of `handlerUploadThumbnail`:
`http://localhost:${cfg.port}/upload/thumbnails/${videoId}`. -/
def thumbURL (cfg : ApiConfig) (videoId : String) : String :=
  "http://localhost:" ++ toString cfg.port ++ "/upload/thumbnails/" ++ videoId

/-- `handlerUploadThumbnail` of `src/api/thumbnails.ts`, translated line
by line.  `auth` is the combined outcome of the auth collaborator
(`getBearerToken` + `validateJWT`, not among the provided sources):
`.ok userID` or a thrown error.  `persist` is the outcome of the
`updateVideo` collaborator call, modelled from the spec ("both
potentially fail with store-level errors that the handler does not
translate"): `none` for success, `some msg` for a store-level failure
propagated as-is. -/
def handlerUploadThumbnail (cfg : ApiConfig) (auth : Outcome String)
    (persist : Option String) (req : BunRequest) (st : ApiState) :
    Outcome Video × ApiState :=
  if req.videoId = "" then
    (.error (.badRequest "Invalid video ID"), st)
  else
    match auth with
    | .error e => (.error e, st)
    | .ok userID =>
      match getVideo st.db req.videoId with
      | none => (.error (.notFound "Couldn't find video"), st)
      | some video =>
        if video.userID ≠ userID then
          (.error (.userForbidden "You don't own this video"), st)
        else if req.method = "POST" then
          match req.thumbnail with
          | none => (.error (.badRequest "Missing thumbnail"), st)
          | some (.str _) => (.error (.badRequest "Thumbnail must be a file"), st)
          | some (.file f) =>
            if f.data.length > MAX_UPLOAD_SIZE then
              (.error (.badRequest "File size exceeds 10MB limit"), st)
            else if ¬ (strStartsWith f.mediaType "image/") then
              (.error (.badRequest "Thumbnail must be an image file"), st)
            else
              let st1 : ApiState :=
                { st with videoThumbnails :=
                    (mapSet st.videoThumbnails req.videoId
                      ⟨f.data, f.mediaType⟩) }
              let video1 := { video with thumbnailURL := some (thumbURL cfg req.videoId) }
              match persist with
              | some e => (.error (.storeError e), st1)
              | none => (.ok video1, { st1 with db := updateVideo st1.db video1 })
        else
          (.error (.badRequest "Method not allowed"), st)

/-! ### Helper lemmas on the stores -/

theorem mapGet_mapSet_self (m : List (String × Thumbnail)) (k : String)
    (v : Thumbnail) : mapGet (mapSet m k v) k = some v := by
  induction m with
  | nil => simp [mapGet, mapSet]
  | cons hd tl ih =>
    by_cases h : hd.1 = k
    · simp [mapGet, mapSet, h]
    · simp [mapGet, mapSet, h, ih]

theorem mapGet_mapSet_ne (m : List (String × Thumbnail)) (k k' : String)
    (v : Thumbnail) (h : k' ≠ k) : mapGet (mapSet m k v) k' = mapGet m k' := by
  have hks : ¬ k = k' := fun hkk => h hkk.symm
  induction m with
  | nil => simp [mapGet, mapSet, hks]
  | cons hd tl ih =>
    by_cases hk : hd.1 = k
    · simp [mapGet, mapSet, hk, hks]
    · simp only [mapSet, if_neg hk]
      by_cases hk' : hd.1 = k'
      · simp [mapGet, hk']
      · simp [mapGet, hk', ih]

theorem getVideo_id (db : List Video) (i : String) (v : Video)
    (h : getVideo db i = some v) : v.id = i := by
  induction db with
  | nil => simp [getVideo] at h
  | cons hd tl ih =>
    by_cases hhd : hd.id = i
    · simp [getVideo, hhd] at h
      exact h ▸ hhd
    · simp [getVideo, hhd] at h
      exact ih h

theorem getVideo_updateVideo_self (db : List Video) (i : String)
    (v w : Video) (hw : w.id = i) (h : getVideo db i = some v) :
    getVideo (updateVideo db w) i = some w := by
  induction db with
  | nil => simp [getVideo] at h
  | cons hd tl ih =>
    by_cases hhd : hd.id = i
    · simp [getVideo, updateVideo, hhd, hw, hhd.trans hw.symm]
    · have : ¬ hd.id = w.id := fun hc => hhd (hc.trans hw)
      simp only [getVideo, if_neg hhd] at h
      simp [getVideo, updateVideo, this, hhd, ih h, updateVideo] at ih ⊢
      exact ih h

/-! ### Execution-path lemmas for the upload handler

One lemma per exit of `handlerUploadThumbnail`, each stating which
result and post-state the handler produces once the checks reached so
far are fixed.  The claims below are assembled from these. -/

section Paths

variable (cfg : ApiConfig) (auth : Outcome String) (persist : Option String)
variable (req : BunRequest) (st : ApiState) (u : String) (video : Video)
variable (f : UploadFile)

theorem upload_emptyId (h : req.videoId = "") :
    handlerUploadThumbnail cfg auth persist req st
      = (.error (.badRequest "Invalid video ID"), st) := by
  simp [handlerUploadThumbnail, h]

theorem upload_authError (e : ApiError) (hid : req.videoId ≠ "") :
    handlerUploadThumbnail cfg (.error e) persist req st = (.error e, st) := by
  simp [handlerUploadThumbnail, hid]

theorem upload_noVideo (hid : req.videoId ≠ "")
    (h : getVideo st.db req.videoId = none) :
    handlerUploadThumbnail cfg (.ok u) persist req st
      = (.error (.notFound "Couldn't find video"), st) := by
  simp [handlerUploadThumbnail, hid, h]

theorem upload_notOwner (hid : req.videoId ≠ "")
    (hvid : getVideo st.db req.videoId = some video)
    (h : video.userID ≠ u) :
    handlerUploadThumbnail cfg (.ok u) persist req st
      = (.error (.userForbidden "You don't own this video"), st) := by
  simp [handlerUploadThumbnail, hid, hvid, h]

theorem upload_badMethod (hid : req.videoId ≠ "")
    (hvid : getVideo st.db req.videoId = some video)
    (hown : video.userID = u) (h : req.method ≠ "POST") :
    handlerUploadThumbnail cfg (.ok u) persist req st
      = (.error (.badRequest "Method not allowed"), st) := by
  simp [handlerUploadThumbnail, hid, hvid, hown, h]

theorem upload_missingThumbnail (hid : req.videoId ≠ "")
    (hvid : getVideo st.db req.videoId = some video)
    (hown : video.userID = u) (hmeth : req.method = "POST")
    (h : req.thumbnail = none) :
    handlerUploadThumbnail cfg (.ok u) persist req st
      = (.error (.badRequest "Missing thumbnail"), st) := by
  simp [handlerUploadThumbnail, hid, hvid, hown, hmeth, h]

theorem upload_thumbNotFile (s : String) (hid : req.videoId ≠ "")
    (hvid : getVideo st.db req.videoId = some video)
    (hown : video.userID = u) (hmeth : req.method = "POST")
    (h : req.thumbnail = some (.str s)) :
    handlerUploadThumbnail cfg (.ok u) persist req st
      = (.error (.badRequest "Thumbnail must be a file"), st) := by
  simp [handlerUploadThumbnail, hid, hvid, hown, hmeth, h]

theorem upload_tooBig (hid : req.videoId ≠ "")
    (hvid : getVideo st.db req.videoId = some video)
    (hown : video.userID = u) (hmeth : req.method = "POST")
    (hform : req.thumbnail = some (.file f))
    (h : f.data.length > MAX_UPLOAD_SIZE) :
    handlerUploadThumbnail cfg (.ok u) persist req st
      = (.error (.badRequest "File size exceeds 10MB limit"), st) := by
  simp [handlerUploadThumbnail, hid, hvid, hown, hmeth, hform, h]

theorem upload_notImage (hid : req.videoId ≠ "")
    (hvid : getVideo st.db req.videoId = some video)
    (hown : video.userID = u) (hmeth : req.method = "POST")
    (hform : req.thumbnail = some (.file f))
    (hsize : ¬ f.data.length > MAX_UPLOAD_SIZE)
    (h : strStartsWith f.mediaType "image/" = false) :
    handlerUploadThumbnail cfg (.ok u) persist req st
      = (.error (.badRequest "Thumbnail must be an image file"), st) := by
  simp [handlerUploadThumbnail, hid, hvid, hown, hmeth, hform, hsize, h]

theorem upload_success (hid : req.videoId ≠ "")
    (hvid : getVideo st.db req.videoId = some video)
    (hown : video.userID = u) (hmeth : req.method = "POST")
    (hform : req.thumbnail = some (.file f))
    (hsize : ¬ f.data.length > MAX_UPLOAD_SIZE)
    (htype : strStartsWith f.mediaType "image/" = true) :
    handlerUploadThumbnail cfg (.ok u) none req st
      = (.ok { video with thumbnailURL := some (thumbURL cfg req.videoId) },
         { videoThumbnails :=
             (mapSet st.videoThumbnails req.videoId ⟨f.data, f.mediaType⟩),
           db := updateVideo st.db
             { video with thumbnailURL := some (thumbURL cfg req.videoId) } }) := by
  simp [handlerUploadThumbnail, hid, hvid, hown, hmeth, hform, hsize, htype]

theorem upload_persistFail (e : String) (hid : req.videoId ≠ "")
    (hvid : getVideo st.db req.videoId = some video)
    (hown : video.userID = u) (hmeth : req.method = "POST")
    (hform : req.thumbnail = some (.file f))
    (hsize : ¬ f.data.length > MAX_UPLOAD_SIZE)
    (htype : strStartsWith f.mediaType "image/" = true) :
    handlerUploadThumbnail cfg (.ok u) (some e) req st
      = (.error (.storeError e),
         { st with videoThumbnails :=
             (mapSet st.videoThumbnails req.videoId ⟨f.data, f.mediaType⟩) }) := by
  simp [handlerUploadThumbnail, hid, hvid, hown, hmeth, hform, hsize, htype]

end Paths

theorem MAX_UPLOAD_SIZE_eq : MAX_UPLOAD_SIZE = 10 * 2 ^ 20 := by decide

theorem getThumbnail_ok_no_store (r : BunRequest) (s : ApiState)
    (res : ThumbnailResponse) (s2 : ApiState)
    (hres : handlerGetThumbnail r s = (.ok res, s2)) :
    res.cacheControl = "no-store" := by
  by_cases h1 : r.videoId = ""
  · simp [handlerGetThumbnail, h1] at hres
  · cases h2 : getVideo s.db r.videoId with
    | none => simp [handlerGetThumbnail, h1, h2] at hres
    | some v =>
      cases h3 : mapGet s.videoThumbnails r.videoId with
      | none => simp [handlerGetThumbnail, h1, h2, h3] at hres
      | some t =>
        simp [handlerGetThumbnail, h1, h2, h3, Prod.ext_iff] at hres
        rw [← hres.1]

/-! ### Fixtures for the witnesses -/

/-- Fixture: a video owned by user `u1`. -/
def vid0 : Video := ⟨"vid-1", "u1", none⟩

/-- Fixture: empty thumbnail map, one video in the store. -/
def st0 : ApiState := ⟨[], [vid0]⟩

/-- Fixture: a three-byte PNG file part. -/
def png3 : UploadFile := ⟨[1, 2, 3], "image/png"⟩

/-- Fixture: a five-byte JPEG file part. -/
def jpeg5 : UploadFile := ⟨[9, 8, 7, 6, 5], "image/jpeg"⟩

/-- Fixture: a valid POST upload request for `vid-1`. -/
def reqPost : BunRequest := ⟨"POST", "vid-1", some (.file png3)⟩

/-- Fixture: a GET retrieval request for `vid-1`. -/
def reqGet : BunRequest := ⟨"GET", "vid-1", none⟩

/-- Fixture: configuration with port 8091. -/
def cfg0 : ApiConfig := ⟨8091⟩

/-! ### The claims -/

/-- C1: for every upload with a non-empty video identifier, an
authenticated owner, a POST request carrying a multipart "thumbnail"
file of size `s ≤ 10·2^20` with declared media type prefixed `image/`,
Upload succeeds; a subsequent Retrieve for the same identifier succeeds
and returns exactly those `s` bytes with that declared media type as the
content type; and every successful Retrieve carries the
`Cache-Control: no-store` directive. -/
theorem C1_upload_then_retrieve (cfg : ApiConfig) (u : String)
    (req : BunRequest) (st : ApiState) (video : Video) (f : UploadFile)
    (hid : req.videoId ≠ "") (hmeth : req.method = "POST")
    (hform : req.thumbnail = some (.file f))
    (hvid : getVideo st.db req.videoId = some video)
    (hown : video.userID = u)
    (hsize : f.data.length ≤ 10 * 2 ^ 20)
    (htype : strStartsWith f.mediaType "image/" = true) :
    ∃ v1 st1,
      handlerUploadThumbnail cfg (.ok u) none req st = (.ok v1, st1) ∧
      handlerGetThumbnail req st1
        = (.ok ⟨f.data, f.mediaType, "no-store"⟩, st1) ∧
      ∀ r s res s2, handlerGetThumbnail r s = (.ok res, s2) →
        res.cacheControl = "no-store" := by
  have hsize' : ¬ f.data.length > MAX_UPLOAD_SIZE := by
    rw [MAX_UPLOAD_SIZE_eq]; omega
  set video1 : Video :=
    { video with thumbnailURL := some (thumbURL cfg req.videoId) } with hv1def
  have hgot : getVideo (updateVideo st.db video1) req.videoId = some video1 :=
    getVideo_updateVideo_self st.db req.videoId video video1
      (getVideo_id st.db req.videoId video hvid) hvid
  refine ⟨video1, _,
    upload_success cfg req st u video f hid hvid hown hmeth hform hsize' htype,
    ?_, fun r s res s2 hres => getThumbnail_ok_no_store r s res s2 hres⟩
  simp [handlerGetThumbnail, hid, hgot, mapGet_mapSet_self]

/-- Witness for C1 at a concrete valid upload. -/
theorem C1_upload_then_retrieve_witness :
    ∃ v1 st1,
      handlerUploadThumbnail cfg0 (.ok "u1") none reqPost st0 = (.ok v1, st1) ∧
      handlerGetThumbnail reqPost st1
        = (.ok ⟨png3.data, png3.mediaType, "no-store"⟩, st1) ∧
      ∀ r s res s2, handlerGetThumbnail r s = (.ok res, s2) →
        res.cacheControl = "no-store" :=
  C1_upload_then_retrieve cfg0 "u1" reqPost st0 vid0 png3
    (by decide) (by decide) (by decide) (by decide) (by decide)
    (by decide) (by decide)

/-- C2, counterexample: a non-POST upload request for an unknown video
yields the NotFound error, not the MethodNotAllowed bad-request error —
so the verb check is NOT performed before video existence is
consulted, refuting the claimed check order. -/
theorem C2_counterexample :
    handlerUploadThumbnail ⟨8091⟩ (.ok "u1") none
        ⟨"GET", "vid-1", some (.file ⟨[1], "image/png"⟩)⟩ ⟨[], []⟩
      = (.error (.notFound "Couldn't find video"), ⟨[], []⟩) ∧
    (handlerUploadThumbnail ⟨8091⟩ (.ok "u1") none
        ⟨"GET", "vid-1", some (.file ⟨[1], "image/png"⟩)⟩ ⟨[], []⟩).1
      ≠ .error (.badRequest "Method not allowed") := by decide

/-- C2, amended: Upload's precondition checks run fail-fast in the
code's order — identifier non-empty, then authentication, then video
existence, then ownership, then the POST verb check (as a bad-request
kind), then form decoding, then size, then media type.  The
MethodNotAllowed error is signalled only after video existence and
ownership have been checked. -/
theorem C2_check_order (cfg : ApiConfig) (auth : Outcome String)
    (persist : Option String) (req : BunRequest) (st : ApiState)
    (u : String) (video : Video) (f : UploadFile) (s : String)
    (e : ApiError) :
    (req.videoId = "" →
      handlerUploadThumbnail cfg auth persist req st
        = (.error (.badRequest "Invalid video ID"), st)) ∧
    (req.videoId ≠ "" →
      handlerUploadThumbnail cfg (.error e) persist req st
        = (.error e, st)) ∧
    (req.videoId ≠ "" → getVideo st.db req.videoId = none →
      handlerUploadThumbnail cfg (.ok u) persist req st
        = (.error (.notFound "Couldn't find video"), st)) ∧
    (req.videoId ≠ "" → getVideo st.db req.videoId = some video →
      video.userID ≠ u →
      handlerUploadThumbnail cfg (.ok u) persist req st
        = (.error (.userForbidden "You don't own this video"), st)) ∧
    (req.videoId ≠ "" → getVideo st.db req.videoId = some video →
      video.userID = u → req.method ≠ "POST" →
      handlerUploadThumbnail cfg (.ok u) persist req st
        = (.error (.badRequest "Method not allowed"), st)) ∧
    (req.videoId ≠ "" → getVideo st.db req.videoId = some video →
      video.userID = u → req.method = "POST" → req.thumbnail = none →
      handlerUploadThumbnail cfg (.ok u) persist req st
        = (.error (.badRequest "Missing thumbnail"), st)) ∧
    (req.videoId ≠ "" → getVideo st.db req.videoId = some video →
      video.userID = u → req.method = "POST" →
      req.thumbnail = some (.str s) →
      handlerUploadThumbnail cfg (.ok u) persist req st
        = (.error (.badRequest "Thumbnail must be a file"), st)) ∧
    (req.videoId ≠ "" → getVideo st.db req.videoId = some video →
      video.userID = u → req.method = "POST" →
      req.thumbnail = some (.file f) →
      f.data.length > MAX_UPLOAD_SIZE →
      handlerUploadThumbnail cfg (.ok u) persist req st
        = (.error (.badRequest "File size exceeds 10MB limit"), st)) ∧
    (req.videoId ≠ "" → getVideo st.db req.videoId = some video →
      video.userID = u → req.method = "POST" →
      req.thumbnail = some (.file f) →
      ¬ f.data.length > MAX_UPLOAD_SIZE →
      strStartsWith f.mediaType "image/" = false →
      handlerUploadThumbnail cfg (.ok u) persist req st
        = (.error (.badRequest "Thumbnail must be an image file"), st)) :=
  ⟨fun h => upload_emptyId cfg auth persist req st h,
   fun hid => upload_authError cfg persist req st e hid,
   fun hid h => upload_noVideo cfg persist req st u hid h,
   fun hid hvid h => upload_notOwner cfg persist req st u video hid hvid h,
   fun hid hvid hown h =>
     upload_badMethod cfg persist req st u video hid hvid hown h,
   fun hid hvid hown hmeth h =>
     upload_missingThumbnail cfg persist req st u video hid hvid hown hmeth h,
   fun hid hvid hown hmeth h =>
     upload_thumbNotFile cfg persist req st u video s hid hvid hown hmeth h,
   fun hid hvid hown hmeth hform h =>
     upload_tooBig cfg persist req st u video f hid hvid hown hmeth hform h,
   fun hid hvid hown hmeth hform hsize h =>
     upload_notImage cfg persist req st u video f hid hvid hown hmeth hform hsize h⟩

/-- Witness for C2's amended order: a non-POST request for an existing,
owned video is rejected with the method error. -/
theorem C2_check_order_witness :
    handlerUploadThumbnail cfg0 (.ok "u1") none
        ⟨"PUT", "vid-1", some (.file png3)⟩ st0
      = (.error (.badRequest "Method not allowed"), st0) :=
  (C2_check_order cfg0 (.ok "u1") none ⟨"PUT", "vid-1", some (.file png3)⟩
      st0 "u1" vid0 png3 "" (.badRequest "")).2.2.2.2.1
    (by decide) (by decide) (by decide) (by decide)

/-- C3: for every upload reaching the size check, Upload fails with the
size-limit bad-request error if and only if the file's byte length
strictly exceeds `10·2^20`, regardless of the declared media type; a
file of exactly `10·2^20` bytes is never rejected by the size check. -/
theorem C3_size_limit (cfg : ApiConfig) (persist : Option String)
    (req : BunRequest) (st : ApiState) (u : String) (video : Video)
    (f : UploadFile)
    (hid : req.videoId ≠ "") (hvid : getVideo st.db req.videoId = some video)
    (hown : video.userID = u) (hmeth : req.method = "POST")
    (hform : req.thumbnail = some (.file f)) :
    ((handlerUploadThumbnail cfg (.ok u) persist req st).1
        = .error (.badRequest "File size exceeds 10MB limit")
      ↔ f.data.length > 10 * 2 ^ 20) ∧
    (f.data.length = 10 * 2 ^ 20 →
      (handlerUploadThumbnail cfg (.ok u) persist req st).1
        ≠ .error (.badRequest "File size exceeds 10MB limit")) := by
  have hiff : (handlerUploadThumbnail cfg (.ok u) persist req st).1
        = .error (.badRequest "File size exceeds 10MB limit")
      ↔ f.data.length > 10 * 2 ^ 20 := by
    constructor
    · intro heq
      by_contra hle
      have hsz : ¬ f.data.length > MAX_UPLOAD_SIZE := by
        rw [MAX_UPLOAD_SIZE_eq]; exact hle
      cases ht : strStartsWith f.mediaType "image/" with
      | false =>
        rw [upload_notImage cfg persist req st u video f
          hid hvid hown hmeth hform hsz ht] at heq
        simp at heq
      | true =>
        cases persist with
        | none =>
          rw [upload_success cfg req st u video f
            hid hvid hown hmeth hform hsz ht] at heq
          simp at heq
        | some e2 =>
          rw [upload_persistFail cfg req st u video f e2
            hid hvid hown hmeth hform hsz ht] at heq
          simp at heq
    · intro hgt
      rw [upload_tooBig cfg persist req st u video f hid hvid hown hmeth hform
        (by rw [MAX_UPLOAD_SIZE_eq]; exact hgt)]
  refine ⟨hiff, fun heq hcontra => ?_⟩
  have := hiff.mp hcontra
  omega

/-- Witness for C3 at a concrete three-byte upload. -/
theorem C3_size_limit_witness :
    ((handlerUploadThumbnail cfg0 (.ok "u1") none reqPost st0).1
        = .error (.badRequest "File size exceeds 10MB limit")
      ↔ png3.data.length > 10 * 2 ^ 20) ∧
    (png3.data.length = 10 * 2 ^ 20 →
      (handlerUploadThumbnail cfg0 (.ok "u1") none reqPost st0).1
        ≠ .error (.badRequest "File size exceeds 10MB limit")) :=
  C3_size_limit cfg0 none reqPost st0 "u1" vid0 png3
    (by decide) (by decide) (by decide) (by decide) (by decide)

/-- C4: for every upload reaching the media-type check whose declared
media type does not begin with "image/", Upload fails with the
image-only bad-request error, for every byte payload of every size that
reaches the check — only the declared type string is consulted, never
the payload bytes. -/
theorem C4_media_type_only (cfg : ApiConfig) (persist : Option String)
    (st : ApiState) (u v mt : String) (video : Video) (d : Bytes)
    (hv : v ≠ "") (hvid : getVideo st.db v = some video)
    (hown : video.userID = u)
    (hd : d.length ≤ 10 * 2 ^ 20)
    (ht : strStartsWith mt "image/" = false) :
    handlerUploadThumbnail cfg (.ok u) persist
        ⟨"POST", v, some (.file ⟨d, mt⟩)⟩ st
      = (.error (.badRequest "Thumbnail must be an image file"), st) :=
  upload_notImage cfg persist ⟨"POST", v, some (.file ⟨d, mt⟩)⟩ st u video
    ⟨d, mt⟩ hv hvid hown rfl rfl
    (by rw [MAX_UPLOAD_SIZE_eq]; simpa using hd) ht

/-- Witness for C4 at a concrete PDF upload. -/
theorem C4_media_type_only_witness :
    handlerUploadThumbnail cfg0 (.ok "u1") none
        ⟨"POST", "vid-1", some (.file ⟨[0], "application/pdf"⟩)⟩ st0
      = (.error (.badRequest "Thumbnail must be an image file"), st0) :=
  C4_media_type_only cfg0 none st0 "u1" "vid-1" "application/pdf" vid0 [0]
    (by decide) (by decide) (by decide) (by decide) (by decide)

/-- C5: an upload by an authenticated user who is not the video's owner
fails with the Forbidden error and leaves the state untouched, so any
subsequent Retrieve observes exactly the prior state. -/
theorem C5_forbidden_no_mutation (cfg : ApiConfig) (persist : Option String)
    (req : BunRequest) (st : ApiState) (u : String) (video : Video)
    (hid : req.videoId ≠ "")
    (hvid : getVideo st.db req.videoId = some video)
    (hne : video.userID ≠ u) :
    handlerUploadThumbnail cfg (.ok u) persist req st
      = (.error (.userForbidden "You don't own this video"), st) ∧
    ∀ r, handlerGetThumbnail r (handlerUploadThumbnail cfg (.ok u) persist req st).2
        = handlerGetThumbnail r st := by
  have h := upload_notOwner cfg persist req st u video hid hvid hne
  exact ⟨h, fun r => by rw [h]⟩

/-- Witness for C5: user `u2` attempts an upload on `u1`'s video. -/
theorem C5_forbidden_no_mutation_witness :
    handlerUploadThumbnail cfg0 (.ok "u2") none reqPost st0
      = (.error (.userForbidden "You don't own this video"), st0) ∧
    ∀ r, handlerGetThumbnail r (handlerUploadThumbnail cfg0 (.ok "u2") none reqPost st0).2
        = handlerGetThumbnail r st0 :=
  C5_forbidden_no_mutation cfg0 none reqPost st0 "u2" vid0
    (by decide) (by decide) (by decide)

/-- C6: two successful sequential uploads under the same identifier
leave only the second payload and media type retrievable — the keyed
store holds exactly the second entry for that identifier and Retrieve
returns it (last-write-wins replacement). -/
theorem C6_last_write_wins (cfg : ApiConfig) (u v : String) (st : ApiState)
    (video : Video) (f1 f2 : UploadFile)
    (hv : v ≠ "") (hvid : getVideo st.db v = some video)
    (hown : video.userID = u)
    (hs1 : f1.data.length ≤ 10 * 2 ^ 20)
    (ht1 : strStartsWith f1.mediaType "image/" = true)
    (hs2 : f2.data.length ≤ 10 * 2 ^ 20)
    (ht2 : strStartsWith f2.mediaType "image/" = true) :
    ∃ v1 v2 st1 st2,
      handlerUploadThumbnail cfg (.ok u) none
          ⟨"POST", v, some (.file f1)⟩ st = (.ok v1, st1) ∧
      handlerUploadThumbnail cfg (.ok u) none
          ⟨"POST", v, some (.file f2)⟩ st1 = (.ok v2, st2) ∧
      handlerGetThumbnail ⟨"GET", v, none⟩ st2
        = (.ok ⟨f2.data, f2.mediaType, "no-store"⟩, st2) ∧
      mapGet st2.videoThumbnails v = some ⟨f2.data, f2.mediaType⟩ := by
  have hs1' : ¬ f1.data.length > MAX_UPLOAD_SIZE := by
    rw [MAX_UPLOAD_SIZE_eq]; omega
  have hs2' : ¬ f2.data.length > MAX_UPLOAD_SIZE := by
    rw [MAX_UPLOAD_SIZE_eq]; omega
  set video1 : Video := { video with thumbnailURL := some (thumbURL cfg v) }
    with hv1def
  have hidv : video.id = v := getVideo_id st.db v video hvid
  have h1 := upload_success cfg ⟨"POST", v, some (.file f1)⟩ st u video f1
    hv hvid hown rfl rfl hs1' ht1
  have hvid1 : getVideo (updateVideo st.db video1) v = some video1 :=
    getVideo_updateVideo_self st.db v video video1 hidv hvid
  set st1 : ApiState :=
    { videoThumbnails := (mapSet st.videoThumbnails v ⟨f1.data, f1.mediaType⟩),
      db := updateVideo st.db video1 } with hst1def
  have h2 := upload_success cfg ⟨"POST", v, some (.file f2)⟩ st1 u video1 f2
    hv hvid1 hown rfl rfl hs2' ht2
  have hvid2 : getVideo (updateVideo st1.db video1) v = some video1 :=
    getVideo_updateVideo_self st1.db v video1 video1 hidv hvid1
  refine ⟨video1, video1, st1, _, h1, h2, ?_, ?_⟩
  · simp [handlerGetThumbnail, hv, hvid2, mapGet_mapSet_self]
  · simp [mapGet_mapSet_self]

/-- Witness for C6: upload a PNG, then a JPEG, under `vid-1`. -/
theorem C6_last_write_wins_witness :
    ∃ v1 v2 st1 st2,
      handlerUploadThumbnail cfg0 (.ok "u1") none
          ⟨"POST", "vid-1", some (.file png3)⟩ st0 = (.ok v1, st1) ∧
      handlerUploadThumbnail cfg0 (.ok "u1") none
          ⟨"POST", "vid-1", some (.file jpeg5)⟩ st1 = (.ok v2, st2) ∧
      handlerGetThumbnail ⟨"GET", "vid-1", none⟩ st2
        = (.ok ⟨jpeg5.data, jpeg5.mediaType, "no-store"⟩, st2) ∧
      mapGet st2.videoThumbnails "vid-1" = some ⟨jpeg5.data, jpeg5.mediaType⟩ :=
  C6_last_write_wins cfg0 "u1" "vid-1" st0 vid0 png3 jpeg5
    (by decide) (by decide) (by decide) (by decide) (by decide)
    (by decide) (by decide)

/-- C7: Retrieve fails with the bad-request kind on an empty identifier,
and with the NotFound kind both when the video is unknown and when the
video exists but no thumbnail is stored — the two NotFound cases differ
only in the message text, never in the error kind. -/
theorem C7_retrieve_errors (req : BunRequest) (st : ApiState)
    (video : Video) :
    (req.videoId = "" →
      handlerGetThumbnail req st
        = (.error (.badRequest "Invalid video ID"), st)) ∧
    (req.videoId ≠ "" → getVideo st.db req.videoId = none →
      handlerGetThumbnail req st
        = (.error (.notFound "Couldn't find video"), st)) ∧
    (req.videoId ≠ "" → getVideo st.db req.videoId = some video →
      mapGet st.videoThumbnails req.videoId = none →
      handlerGetThumbnail req st
        = (.error (.notFound "Thumbnail not found"), st)) :=
  ⟨fun h => by simp [handlerGetThumbnail, h],
   fun hid h => by simp [handlerGetThumbnail, hid, h],
   fun hid h1 h2 => by simp [handlerGetThumbnail, hid, h1, h2]⟩

/-- Witness for C7: retrieval for a known video with no stored
thumbnail yields the NotFound kind. -/
theorem C7_retrieve_errors_witness :
    handlerGetThumbnail reqGet st0
      = (.error (.notFound "Thumbnail not found"), st0) :=
  (C7_retrieve_errors reqGet st0 vid0).2.2 (by decide) (by decide) (by decide)

/-- C8: on every successful upload the handler sets
`http://localhost:<configured-port>/upload/thumbnails/<videoId>` as the
`thumbnailURL` of the fetched video record, persists that record in the
video store (a subsequent fetch returns it), and returns the updated
record as the success response body. -/
theorem C8_success_persists_and_returns (cfg : ApiConfig) (u : String)
    (req : BunRequest) (st : ApiState) (video : Video) (f : UploadFile)
    (hid : req.videoId ≠ "")
    (hvid : getVideo st.db req.videoId = some video)
    (hown : video.userID = u) (hmeth : req.method = "POST")
    (hform : req.thumbnail = some (.file f))
    (hsize : f.data.length ≤ 10 * 2 ^ 20)
    (htype : strStartsWith f.mediaType "image/" = true) :
    handlerUploadThumbnail cfg (.ok u) none req st
      = (.ok { video with thumbnailURL := some (thumbURL cfg req.videoId) },
         { videoThumbnails :=
             (mapSet st.videoThumbnails req.videoId ⟨f.data, f.mediaType⟩),
           db := updateVideo st.db
             { video with thumbnailURL := some (thumbURL cfg req.videoId) } }) ∧
    thumbURL cfg req.videoId
      = "http://localhost:" ++ toString cfg.port ++
          "/upload/thumbnails/" ++ req.videoId ∧
    getVideo (handlerUploadThumbnail cfg (.ok u) none req st).2.db req.videoId
      = some { video with thumbnailURL := some (thumbURL cfg req.videoId) } := by
  have hsz : ¬ f.data.length > MAX_UPLOAD_SIZE := by
    rw [MAX_UPLOAD_SIZE_eq]; omega
  have h := upload_success cfg req st u video f hid hvid hown hmeth hform hsz htype
  refine ⟨h, rfl, ?_⟩
  rw [h]
  exact getVideo_updateVideo_self st.db req.videoId video
    { video with thumbnailURL := some (thumbURL cfg req.videoId) }
    (getVideo_id st.db req.videoId video hvid) hvid

/-- Witness for C8 at the concrete fixture upload. -/
theorem C8_success_persists_and_returns_witness :
    handlerUploadThumbnail cfg0 (.ok "u1") none reqPost st0
      = (.ok { vid0 with thumbnailURL := some (thumbURL cfg0 "vid-1") },
         { videoThumbnails :=
             (mapSet st0.videoThumbnails "vid-1" ⟨png3.data, png3.mediaType⟩),
           db := updateVideo st0.db
             { vid0 with thumbnailURL := some (thumbURL cfg0 "vid-1") } }) ∧
    thumbURL cfg0 "vid-1"
      = "http://localhost:" ++ toString cfg0.port ++
          "/upload/thumbnails/" ++ "vid-1" ∧
    getVideo (handlerUploadThumbnail cfg0 (.ok "u1") none reqPost st0).2.db "vid-1"
      = some { vid0 with thumbnailURL := some (thumbURL cfg0 "vid-1") } :=
  C8_success_persists_and_returns cfg0 "u1" reqPost st0 vid0 png3
    (by decide) (by decide) (by decide) (by decide) (by decide)
    (by decide) (by decide)

/-- C9: an upload never changes the thumbnail entry stored under any
identifier other than the one it targets, whether it succeeds or fails;
and Retrieve never modifies the state at all. -/
theorem C9_frame (cfg : ApiConfig) (auth : Outcome String)
    (persist : Option String) (req : BunRequest) (st : ApiState)
    (b : String) (hb : b ≠ req.videoId) :
    mapGet ((handlerUploadThumbnail cfg auth persist req st).2).videoThumbnails b
      = mapGet st.videoThumbnails b ∧
    ∀ r s, (handlerGetThumbnail r s).2 = s := by
  constructor
  · simp only [handlerUploadThumbnail]
    repeat' split
    all_goals simp_all [mapGet_mapSet_ne _ _ _ _ hb]
  · intro r s
    simp only [handlerGetThumbnail]
    repeat' split
    all_goals rfl

/-- Witness for C9: a successful upload for `vid-1` leaves the entry
under `vid-2` (absent) untouched. -/
theorem C9_frame_witness :
    mapGet ((handlerUploadThumbnail cfg0 (.ok "u1") none reqPost st0).2).videoThumbnails "vid-2"
      = mapGet st0.videoThumbnails "vid-2" ∧
    ∀ r s, (handlerGetThumbnail r s).2 = s :=
  C9_frame cfg0 (.ok "u1") none reqPost st0 "vid-2" (by decide)

/-- C10: when every validation check passes but the video-store persist
fails, the store-level error propagates to the caller while the new
thumbnail entry is already in the keyed map and stays there — the video
table is unchanged and a subsequent Retrieve returns the new bytes; the
two writes are not atomic and the map write is never rolled back. -/
theorem C10_map_write_survives_persist_failure (cfg : ApiConfig)
    (u : String) (req : BunRequest) (st : ApiState) (video : Video)
    (f : UploadFile) (e : String)
    (hid : req.videoId ≠ "")
    (hvid : getVideo st.db req.videoId = some video)
    (hown : video.userID = u) (hmeth : req.method = "POST")
    (hform : req.thumbnail = some (.file f))
    (hsize : f.data.length ≤ 10 * 2 ^ 20)
    (htype : strStartsWith f.mediaType "image/" = true) :
    handlerUploadThumbnail cfg (.ok u) (some e) req st
      = (.error (.storeError e),
         { st with videoThumbnails :=
             (mapSet st.videoThumbnails req.videoId ⟨f.data, f.mediaType⟩) }) ∧
    mapGet ((handlerUploadThumbnail cfg (.ok u) (some e) req st).2).videoThumbnails
        req.videoId
      = some ⟨f.data, f.mediaType⟩ ∧
    ((handlerUploadThumbnail cfg (.ok u) (some e) req st).2).db = st.db ∧
    handlerGetThumbnail ⟨"GET", req.videoId, none⟩
        ((handlerUploadThumbnail cfg (.ok u) (some e) req st).2)
      = (.ok ⟨f.data, f.mediaType, "no-store"⟩,
         (handlerUploadThumbnail cfg (.ok u) (some e) req st).2) := by
  have hsz : ¬ f.data.length > MAX_UPLOAD_SIZE := by
    rw [MAX_UPLOAD_SIZE_eq]; omega
  have h := upload_persistFail cfg req st u video f e hid hvid hown hmeth hform hsz htype
  refine ⟨h, ?_, ?_, ?_⟩
  · rw [h]; exact mapGet_mapSet_self _ _ _
  · rw [h]
  · rw [h]
    simp [handlerGetThumbnail, hid, hvid, mapGet_mapSet_self]

/-- Witness for C10 at the concrete fixture upload with a failing
persist. -/
theorem C10_map_write_survives_persist_failure_witness :
    handlerUploadThumbnail cfg0 (.ok "u1") (some "db write failed") reqPost st0
      = (.error (.storeError "db write failed"),
         { st0 with videoThumbnails :=
             (mapSet st0.videoThumbnails "vid-1" ⟨png3.data, png3.mediaType⟩) }) ∧
    mapGet ((handlerUploadThumbnail cfg0 (.ok "u1") (some "db write failed") reqPost st0).2).videoThumbnails
        "vid-1"
      = some ⟨png3.data, png3.mediaType⟩ ∧
    ((handlerUploadThumbnail cfg0 (.ok "u1") (some "db write failed") reqPost st0).2).db = st0.db ∧
    handlerGetThumbnail ⟨"GET", "vid-1", none⟩
        ((handlerUploadThumbnail cfg0 (.ok "u1") (some "db write failed") reqPost st0).2)
      = (.ok ⟨png3.data, png3.mediaType, "no-store"⟩,
         (handlerUploadThumbnail cfg0 (.ok "u1") (some "db write failed") reqPost st0).2) :=
  C10_map_write_survives_persist_failure cfg0 "u1" reqPost st0 vid0 png3
    "db write failed" (by decide) (by decide) (by decide) (by decide)
    (by decide) (by decide) (by decide)

end Tubely
